import Mathlib

/-!
Verification of the message codec (`src/unpacker/js/request.js`) of the
chrome-ext-wicked-good-unarchiver repository, together with spec-modelled
components (decoder, volume-session state machine) for the parts of the
protocol whose code lives outside `src/`.

The wire envelope is a flat JS object; we model it as an association list
from string keys to wire values, with JS property assignment semantics
(`jsSet`): assigning an existing key overwrites it in place, assigning a
fresh key appends it.
-/

/-- A value stored in a wire envelope: strings, numbers, booleans,
byte buffers (ArrayBuffer, modelled as a list of bytes) and structured
records (for `metadata`). -/
inductive WireValue where
  | str : String → WireValue
  | num : Int → WireValue
  | boolean : Bool → WireValue
  | buf : List Nat → WireValue
  | dict : List (String × WireValue) → WireValue

/-- A wire envelope: a flat record with string keys, in insertion order. -/
abbrev Envelope := List (String × WireValue)

/-- JS property assignment `obj[k] = v`: overwrite the entry in place when
the key is already present, append it otherwise. -/
def jsSet (env : Envelope) (k : String) (v : WireValue) : Envelope :=
  if env.any (fun p => p.1 = k) then
    env.map (fun p => if p.1 = k then (k, v) else p)
  else
    env ++ [(k, v)]

/-- The keys of an envelope, in order. -/
def envKeys (env : Envelope) : List String := env.map Prod.fst

/-! ### Decimal rendering of numbers (JS `Number.prototype.toString()`). -/

/-- Little-endian base-10 digits of `n`, with explicit fuel so that the
recursion is structural (the fuel `n` itself always suffices). -/
def decDigitsCore : Nat → Nat → List Nat
  | 0, _ => []
  | fuel + 1, n => if n = 0 then [] else n % 10 :: decDigitsCore fuel (n / 10)

/-- Little-endian base-10 digits of `n` (`[]` for `0`). -/
def natToDecDigits (n : Nat) : List Nat := decDigitsCore n n

/-- Decimal rendering of a natural number, as produced by JS
`Number.prototype.toString()` on a non-negative integer. -/
def natToDecString (n : Nat) : String :=
  if n = 0 then "0"
  else String.mk (((natToDecDigits n).map Nat.digitChar).reverse)

/-- Decimal rendering of an integer: the JS `toString()` used by the
constructors on request ids, offsets and archive sizes. -/
def jsToString (n : Int) : String :=
  if n < 0 then "-" ++ natToDecString n.natAbs else natToDecString n.toNat

/-! ### `request.Key` — the wire key names (`request.js` lines 17–36). -/

def request.Key.OPERATION : String := "operation"

def request.Key.FILE_SYSTEM_ID : String := "file_system_id"

def request.Key.REQUEST_ID : String := "request_id"

def request.Key.ERROR : String := "error"

def request.Key.METADATA : String := "metadata"

def request.Key.ARCHIVE_SIZE : String := "archive_size"

def request.Key.CHUNK_BUFFER : String := "chunk_buffer"

def request.Key.OFFSET : String := "offset"

def request.Key.LENGTH : String := "length"

def request.Key.FILE_PATH : String := "file_path"

def request.Key.OPEN_REQUEST_ID : String := "open_request_id"

def request.Key.READ_FILE_DATA : String := "read_file_data"

def request.Key.HAS_MORE_DATA : String := "has_more_data"

/-- All key names defined in `request.Key`, in source order. -/
def request.keyNames : List String :=
  [request.Key.OPERATION, request.Key.FILE_SYSTEM_ID, request.Key.REQUEST_ID,
   request.Key.ERROR, request.Key.METADATA, request.Key.ARCHIVE_SIZE,
   request.Key.CHUNK_BUFFER, request.Key.OFFSET, request.Key.LENGTH,
   request.Key.FILE_PATH, request.Key.OPEN_REQUEST_ID,
   request.Key.READ_FILE_DATA, request.Key.HAS_MORE_DATA]

/-! ### `request.Operation` — the operation codes (`request.js` lines 43–58). -/

def request.Operation.READ_METADATA : Int := 0

def request.Operation.READ_METADATA_DONE : Int := 1

def request.Operation.READ_CHUNK : Int := 2

def request.Operation.READ_CHUNK_DONE : Int := 3

def request.Operation.READ_CHUNK_ERROR : Int := 4

def request.Operation.CLOSE_VOLUME : Int := 5

def request.Operation.OPEN_FILE : Int := 6

def request.Operation.OPEN_FILE_DONE : Int := 7

def request.Operation.CLOSE_FILE : Int := 8

def request.Operation.CLOSE_FILE_DONE : Int := 9

def request.Operation.READ_FILE : Int := 10

def request.Operation.READ_FILE_DONE : Int := 11

def request.Operation.FILE_SYSTEM_ERROR : Int := -1

/-- All operation codes, in source order. -/
def request.operationCodes : List Int :=
  [request.Operation.READ_METADATA, request.Operation.READ_METADATA_DONE,
   request.Operation.READ_CHUNK, request.Operation.READ_CHUNK_DONE,
   request.Operation.READ_CHUNK_ERROR, request.Operation.CLOSE_VOLUME,
   request.Operation.OPEN_FILE, request.Operation.OPEN_FILE_DONE,
   request.Operation.CLOSE_FILE, request.Operation.CLOSE_FILE_DONE,
   request.Operation.READ_FILE, request.Operation.READ_FILE_DONE,
   request.Operation.FILE_SYSTEM_ERROR]

/-! ### The constructors of `request.js`. -/

/-- Embedding of `request.createBasic_`: a request with the three mandatory fields;
the request id is rendered with `toString()`. -/
def request.createBasic_ (operation : Int) (fileSystemId : String)
    (requestId : Int) : Envelope :=
  jsSet (jsSet (jsSet [] request.Key.OPERATION (WireValue.num operation))
      request.Key.FILE_SYSTEM_ID (WireValue.str fileSystemId))
    request.Key.REQUEST_ID (WireValue.str (jsToString requestId))

/-- Embedding of `request.createReadMetadataRequest`. -/
def request.createReadMetadataRequest (fileSystemId : String)
    (requestId : Int) (archiveSize : Int) : Envelope :=
  jsSet (request.createBasic_ request.Operation.READ_METADATA fileSystemId
      requestId)
    request.Key.ARCHIVE_SIZE (WireValue.str (jsToString archiveSize))

/-- Embedding of `request.createReadChunkDoneResponse`. -/
def request.createReadChunkDoneResponse (fileSystemId : String)
    (requestId : Int) (buffer : List Nat) : Envelope :=
  jsSet (request.createBasic_ request.Operation.READ_CHUNK_DONE fileSystemId
      requestId)
    request.Key.CHUNK_BUFFER (WireValue.buf buffer)

/-- Embedding of `request.createReadChunkErrorResponse`. -/
def request.createReadChunkErrorResponse (fileSystemId : String)
    (requestId : Int) : Envelope :=
  request.createBasic_ request.Operation.READ_CHUNK_ERROR fileSystemId
    requestId

/-- Embedding of `request.createCloseVolumeRequest`: mandatory fields only, with
request id `-1`. -/
def request.createCloseVolumeRequest (fileSystemId : String) : Envelope :=
  request.createBasic_ request.Operation.CLOSE_VOLUME fileSystemId (-1)

/-- Embedding of `request.createOpenFileRequest`. -/
def request.createOpenFileRequest (fileSystemId : String) (requestId : Int)
    (filePath : String) (archiveSize : Int) : Envelope :=
  jsSet (jsSet (request.createBasic_ request.Operation.OPEN_FILE fileSystemId
        requestId)
      request.Key.FILE_PATH (WireValue.str filePath))
    request.Key.ARCHIVE_SIZE (WireValue.str (jsToString archiveSize))

/-- Embedding of `request.createCloseFileRequest`. -/
def request.createCloseFileRequest (fileSystemId : String) (requestId : Int)
    (openRequestId : Int) : Envelope :=
  jsSet (request.createBasic_ request.Operation.CLOSE_FILE fileSystemId
      requestId)
    request.Key.OPEN_REQUEST_ID (WireValue.str (jsToString openRequestId))

/-- Embedding of `request.createReadFileRequest`: open request id and offset are
rendered with `toString()`, the length is stored as a native number. -/
def request.createReadFileRequest (fileSystemId : String) (requestId : Int)
    (openRequestId : Int) (offset : Int) (length : Int) : Envelope :=
  jsSet (jsSet (jsSet (request.createBasic_ request.Operation.READ_FILE
          fileSystemId requestId)
        request.Key.OPEN_REQUEST_ID (WireValue.str (jsToString openRequestId)))
      request.Key.OFFSET (WireValue.str (jsToString offset)))
    request.Key.LENGTH (WireValue.num length)

/-! ### Decimal parsing (support for the spec-modelled decoder). -/

/-- The numeric value of a decimal digit character, `none` otherwise. -/
def decDigit? (c : Char) : Option Nat :=
  if '0' ≤ c ∧ c ≤ '9' then some (c.toNat - '0'.toNat) else none

/-- Parse a non-empty list of decimal digit characters, most significant
first. -/
def parseDecNat? : List Char → Option Nat
  | [] => none
  | c :: cs =>
    (c :: cs).foldlM (fun acc ch => (decDigit? ch).map (fun d => acc * 10 + d)) 0

/-- Parse a decimal string with an optional leading minus sign. -/
def parseDecInt? (s : String) : Option Int :=
  match s.data with
  | [] => none
  | c :: cs =>
    if c = '-' then (parseDecNat? cs).map (fun m => -(m : Int))
    else (parseDecNat? (c :: cs)).map (fun m => (m : Int))

/-- The numeric value of a little-endian digit list. -/
def decValue : List Nat → Nat
  | [] => 0
  | d :: l => d + 10 * decValue l

theorem decValue_append_single (l : List Nat) (d : Nat) :
    decValue (l ++ [d]) = decValue l + d * 10 ^ l.length := by
  induction l with
  | nil => simp [decValue]
  | cons e l ih => simp [decValue, ih, List.length_cons, pow_succ]; ring

theorem decDigitsCore_value (fuel n : Nat) (h : n ≤ fuel) :
    decValue (decDigitsCore fuel n) = n := by
  induction fuel generalizing n with
  | zero =>
    have : n = 0 := by omega
    simp [this, decDigitsCore, decValue]
  | succ fuel ih =>
    by_cases hn : n = 0
    · simp [hn, decDigitsCore, decValue]
    · have hdiv : n / 10 ≤ fuel := by omega
      simp [decDigitsCore, hn, decValue, ih (n / 10) hdiv]
      omega

theorem decDigitsCore_lt (fuel n d : Nat) (h : d ∈ decDigitsCore fuel n) :
    d < 10 := by
  induction fuel generalizing n with
  | zero => simp [decDigitsCore] at h
  | succ fuel ih =>
    by_cases hn : n = 0
    · simp [decDigitsCore, hn] at h
    · simp [decDigitsCore, hn] at h
      rcases h with h | h
      · omega
      · exact ih (n / 10) h

theorem decDigitsCore_ne_nil (fuel n : Nat) (hn : n ≠ 0) (h : n ≤ fuel) :
    decDigitsCore fuel n ≠ [] := by
  cases fuel with
  | zero => omega
  | succ fuel => simp [decDigitsCore, hn]

theorem foldl_decValue (l : List Nat) (a : Nat) :
    l.foldl (fun acc d => acc * 10 + d) a
      = a * 10 ^ l.length + decValue l.reverse := by
  induction l generalizing a with
  | nil => simp [decValue]
  | cons d l ih =>
    simp [List.foldl_cons, ih (a * 10 + d), decValue_append_single,
      List.length_cons, pow_succ]
    ring

theorem decDigit?_digitChar (d : Nat) (h : d < 10) :
    decDigit? (Nat.digitChar d) = some d := by
  interval_cases d <;> decide

theorem digitChar_ne_dash (d : Nat) (h : d < 10) : Nat.digitChar d ≠ '-' := by
  interval_cases d <;> decide

theorem foldlM_decDigits (l : List Nat) (h : ∀ d ∈ l, d < 10) (a : Nat) :
    (l.map Nat.digitChar).foldlM
        (fun acc ch => (decDigit? ch).map (fun d => acc * 10 + d)) a
      = some (l.foldl (fun acc d => acc * 10 + d) a) := by
  induction l generalizing a with
  | nil => rfl
  | cons d l ih =>
    have hd : d < 10 := h d (by simp)
    have hl : ∀ e ∈ l, e < 10 := fun e he => h e (by simp [he])
    simp [List.foldlM_cons, decDigit?_digitChar d hd, ih hl]

theorem parseDecNat?_render (n : Nat) (hn : n ≠ 0) :
    parseDecNat? (((natToDecDigits n).map Nat.digitChar).reverse) = some n := by
  have hval : decValue (natToDecDigits n) = n :=
    decDigitsCore_value n n (Nat.le_refl n)
  have hlt : ∀ d ∈ (natToDecDigits n).reverse, d < 10 := by
    intro d hd
    exact decDigitsCore_lt n n d (List.mem_reverse.mp hd)
  have hne : (natToDecDigits n).reverse ≠ [] := by
    simp [natToDecDigits]
    exact decDigitsCore_ne_nil n n hn (Nat.le_refl n)
  rw [← List.map_reverse]
  cases hB : (natToDecDigits n).reverse with
  | nil => exact absurd hB hne
  | cons d rest =>
    have hfold := foldlM_decDigits (d :: rest) (by rw [← hB]; exact hlt) 0
    simp only [List.map_cons] at hfold
    simp only [parseDecNat?, List.map_cons, hfold, Option.some.injEq]
    rw [foldl_decValue]
    have hrev : (d :: rest).reverse = natToDecDigits n := by
      rw [← hB, List.reverse_reverse]
    rw [hrev, hval]
    simp

theorem parseDecInt?_jsToString (n : Int) : parseDecInt? (jsToString n) = some n := by
  by_cases hneg : n < 0
  · have habs : n.natAbs ≠ 0 := by omega
    have hdata : (jsToString n).data
        = '-' :: (((natToDecDigits n.natAbs).map Nat.digitChar).reverse) := by
      simp [jsToString, hneg, natToDecString, habs, String.data_append]
    simp only [parseDecInt?, hdata, if_pos rfl, parseDecNat?_render n.natAbs habs,
      Option.map_some]
    have hval : -|n| = n := by rw [abs_of_neg hneg, neg_neg]
    simp [hval]
  · by_cases hz : n = 0
    · subst hz
      decide
    · have htn : n.toNat ≠ 0 := by omega
      have hdata : (jsToString n).data
          = ((natToDecDigits n.toNat).map Nat.digitChar).reverse := by
        simp [jsToString, hneg, natToDecString, htn]
      have hne : (natToDecDigits n.toNat).reverse ≠ [] := by
        simp [natToDecDigits]
        exact decDigitsCore_ne_nil _ _ htn (Nat.le_refl _)
      rw [← List.map_reverse] at hdata
      cases hB : (natToDecDigits n.toNat).reverse with
      | nil => exact absurd hB hne
      | cons d rest =>
        have hd10 : d < 10 := by
          have : d ∈ (natToDecDigits n.toNat).reverse := by rw [hB]; simp
          exact decDigitsCore_lt _ _ d (List.mem_reverse.mp this)
        have hdash : Nat.digitChar d ≠ '-' := digitChar_ne_dash d hd10
        rw [hB] at hdata
        simp only [List.map_cons] at hdata
        have hparse : parseDecNat? (Nat.digitChar d :: rest.map Nat.digitChar)
            = some n.toNat := by
          have := parseDecNat?_render n.toNat htn
          rw [← List.map_reverse, hB] at this
          simpa using this
        simp only [parseDecInt?, hdata, if_neg hdash, hparse, Option.map_some]
        have hval : ((n.toNat : Int)) = n := by omega
        simp [hval]

/-! ### Typed messages and the codec (encode / decode).

The seven front-end constructors are taken from `request.js`; the six
engine-originated constructors and the decoder are not part of `src/`
(they live on the NaCl side) and are modelled from the spec (§4.1, §6).
-/

/-- A typed protocol message: one variant per Operation of §3, carrying
exactly the fields of the §6 table. -/
inductive TypedMessage where
  | readMetadata (fileSystemId : String) (requestId : Int) (archiveSize : Int)
  | readMetadataDone (fileSystemId : String) (requestId : Int)
      (metadata : List (String × WireValue))
  | readChunk (fileSystemId : String) (requestId : Int) (offset : Int)
      (length : Int)
  | readChunkDone (fileSystemId : String) (requestId : Int) (buffer : List Nat)
  | readChunkError (fileSystemId : String) (requestId : Int)
  | closeVolume (fileSystemId : String)
  | openFile (fileSystemId : String) (requestId : Int) (filePath : String)
      (archiveSize : Int)
  | openFileDone (fileSystemId : String) (requestId : Int)
  | closeFile (fileSystemId : String) (requestId : Int) (openRequestId : Int)
  | closeFileDone (fileSystemId : String) (requestId : Int)
  | readFile (fileSystemId : String) (requestId : Int) (openRequestId : Int)
      (offset : Int) (length : Int)
  | readFileDone (fileSystemId : String) (requestId : Int) (data : List Nat)
      (hasMoreData : Bool)
  | fileSystemError (fileSystemId : String) (requestId : Int)
      (errorMessage : String)

/-- Modelled from the spec: the read-metadata-done response (engine side,
not in `src/`); mandatory keys plus `metadata` (structured record), §6. -/
def createReadMetadataDoneResponse (fileSystemId : String) (requestId : Int)
    (metadata : List (String × WireValue)) : Envelope :=
  jsSet (request.createBasic_ request.Operation.READ_METADATA_DONE fileSystemId
      requestId)
    request.Key.METADATA (WireValue.dict metadata)

/-- Modelled from the spec: the read-chunk pull (engine side, not in
`src/`); mandatory keys plus `offset` (decimal string) and `length`
(number), §6. -/
def createReadChunkRequest (fileSystemId : String) (requestId : Int)
    (offset : Int) (length : Int) : Envelope :=
  jsSet (jsSet (request.createBasic_ request.Operation.READ_CHUNK fileSystemId
        requestId)
      request.Key.OFFSET (WireValue.str (jsToString offset)))
    request.Key.LENGTH (WireValue.num length)

/-- Modelled from the spec: the open-file-done response (engine side, not
in `src/`); mandatory keys only, §6. -/
def createOpenFileDoneResponse (fileSystemId : String) (requestId : Int) :
    Envelope :=
  request.createBasic_ request.Operation.OPEN_FILE_DONE fileSystemId requestId

/-- Modelled from the spec: the close-file-done response (engine side, not
in `src/`); mandatory keys only, §6. -/
def createCloseFileDoneResponse (fileSystemId : String) (requestId : Int) :
    Envelope :=
  request.createBasic_ request.Operation.CLOSE_FILE_DONE fileSystemId requestId

/-- Modelled from the spec: the read-file-done response (engine side, not
in `src/`); mandatory keys plus `read_file_data` (byte buffer) and
`has_more_data` (boolean), §6. -/
def createReadFileDoneResponse (fileSystemId : String) (requestId : Int)
    (data : List Nat) (hasMoreData : Bool) : Envelope :=
  jsSet (jsSet (request.createBasic_ request.Operation.READ_FILE_DONE
        fileSystemId requestId)
      request.Key.READ_FILE_DATA (WireValue.buf data))
    request.Key.HAS_MORE_DATA (WireValue.boolean hasMoreData)

/-- Modelled from the spec: the file-system-error message (engine side,
not in `src/`); mandatory keys plus `error` (string), §6. -/
def createFileSystemErrorResponse (fileSystemId : String) (requestId : Int)
    (errorMessage : String) : Envelope :=
  jsSet (request.createBasic_ request.Operation.FILE_SYSTEM_ERROR fileSystemId
      requestId)
    request.Key.ERROR (WireValue.str errorMessage)

/-- Encode a typed message into its wire envelope, using the `request.js`
constructors for the front-end operations and the spec-modelled
constructors for the engine-side ones. -/
def encode : TypedMessage → Envelope
  | .readMetadata fs rid sz => request.createReadMetadataRequest fs rid sz
  | .readMetadataDone fs rid md => createReadMetadataDoneResponse fs rid md
  | .readChunk fs rid off len => createReadChunkRequest fs rid off len
  | .readChunkDone fs rid b => request.createReadChunkDoneResponse fs rid b
  | .readChunkError fs rid => request.createReadChunkErrorResponse fs rid
  | .closeVolume fs => request.createCloseVolumeRequest fs
  | .openFile fs rid p sz => request.createOpenFileRequest fs rid p sz
  | .openFileDone fs rid => createOpenFileDoneResponse fs rid
  | .closeFile fs rid orid => request.createCloseFileRequest fs rid orid
  | .closeFileDone fs rid => createCloseFileDoneResponse fs rid
  | .readFile fs rid orid off len =>
      request.createReadFileRequest fs rid orid off len
  | .readFileDone fs rid dta hm => createReadFileDoneResponse fs rid dta hm
  | .fileSystemError fs rid e => createFileSystemErrorResponse fs rid e

/-- Decode errors of §4.1: a missing or ill-shaped mandatory key, or an
unknown operation code. -/
inductive DecodeError where
  | malformedMessage
  | unknownOperation
deriving DecidableEq

/-- Look up a string-valued key. -/
def getStr (env : Envelope) (k : String) : Option String :=
  match List.lookup k env with
  | some (WireValue.str s) => some s
  | _ => none

/-- Look up a number-valued key. -/
def getNum (env : Envelope) (k : String) : Option Int :=
  match List.lookup k env with
  | some (WireValue.num n) => some n
  | _ => none

/-- Look up a boolean-valued key. -/
def getBool (env : Envelope) (k : String) : Option Bool :=
  match List.lookup k env with
  | some (WireValue.boolean b) => some b
  | _ => none

/-- Look up a buffer-valued key. -/
def getBuf (env : Envelope) (k : String) : Option (List Nat) :=
  match List.lookup k env with
  | some (WireValue.buf b) => some b
  | _ => none

/-- Look up a record-valued key. -/
def getDict (env : Envelope) (k : String) : Option (List (String × WireValue)) :=
  match List.lookup k env with
  | some (WireValue.dict d) => some d
  | _ => none

/-- Look up a key carried as a decimal string and parse it. -/
def getIntStr (env : Envelope) (k : String) : Option Int :=
  (getStr env k).bind parseDecInt?

/-- Modelled from the spec: the decoder (§4.1, not in `src/`): read the
mandatory keys, dispatch on the operation code, and read the per-operation
keys of the §6 table; a missing or ill-shaped mandatory key is a
MalformedMessage, an unknown code an UnknownOperation. -/
def decode (env : Envelope) : Except DecodeError TypedMessage :=
  match getNum env request.Key.OPERATION, getStr env request.Key.FILE_SYSTEM_ID,
      getIntStr env request.Key.REQUEST_ID with
  | some op, some fs, some rid =>
    if op = request.Operation.READ_METADATA then
      match getIntStr env request.Key.ARCHIVE_SIZE with
      | some sz => Except.ok (TypedMessage.readMetadata fs rid sz)
      | none => Except.error DecodeError.malformedMessage
    else if op = request.Operation.READ_METADATA_DONE then
      match getDict env request.Key.METADATA with
      | some md => Except.ok (TypedMessage.readMetadataDone fs rid md)
      | none => Except.error DecodeError.malformedMessage
    else if op = request.Operation.READ_CHUNK then
      match getIntStr env request.Key.OFFSET, getNum env request.Key.LENGTH with
      | some off, some len => Except.ok (TypedMessage.readChunk fs rid off len)
      | _, _ => Except.error DecodeError.malformedMessage
    else if op = request.Operation.READ_CHUNK_DONE then
      match getBuf env request.Key.CHUNK_BUFFER with
      | some b => Except.ok (TypedMessage.readChunkDone fs rid b)
      | none => Except.error DecodeError.malformedMessage
    else if op = request.Operation.READ_CHUNK_ERROR then
      Except.ok (TypedMessage.readChunkError fs rid)
    else if op = request.Operation.CLOSE_VOLUME then
      Except.ok (TypedMessage.closeVolume fs)
    else if op = request.Operation.OPEN_FILE then
      match getStr env request.Key.FILE_PATH,
          getIntStr env request.Key.ARCHIVE_SIZE with
      | some p, some sz => Except.ok (TypedMessage.openFile fs rid p sz)
      | _, _ => Except.error DecodeError.malformedMessage
    else if op = request.Operation.OPEN_FILE_DONE then
      Except.ok (TypedMessage.openFileDone fs rid)
    else if op = request.Operation.CLOSE_FILE then
      match getIntStr env request.Key.OPEN_REQUEST_ID with
      | some orid => Except.ok (TypedMessage.closeFile fs rid orid)
      | none => Except.error DecodeError.malformedMessage
    else if op = request.Operation.CLOSE_FILE_DONE then
      Except.ok (TypedMessage.closeFileDone fs rid)
    else if op = request.Operation.READ_FILE then
      match getIntStr env request.Key.OPEN_REQUEST_ID,
          getIntStr env request.Key.OFFSET, getNum env request.Key.LENGTH with
      | some orid, some off, some len =>
          Except.ok (TypedMessage.readFile fs rid orid off len)
      | _, _, _ => Except.error DecodeError.malformedMessage
    else if op = request.Operation.READ_FILE_DONE then
      match getBuf env request.Key.READ_FILE_DATA,
          getBool env request.Key.HAS_MORE_DATA with
      | some dta, some hm =>
          Except.ok (TypedMessage.readFileDone fs rid dta hm)
      | _, _ => Except.error DecodeError.malformedMessage
    else if op = request.Operation.FILE_SYSTEM_ERROR then
      match getStr env request.Key.ERROR with
      | some e => Except.ok (TypedMessage.fileSystemError fs rid e)
      | none => Except.error DecodeError.malformedMessage
    else Except.error DecodeError.unknownOperation
  | _, _, _ => Except.error DecodeError.malformedMessage

/-! ### Explicit envelope forms of all thirteen constructors. -/

theorem request.createBasic_eq (op : Int) (fs : String) (rid : Int) :
    request.createBasic_ op fs rid =
      [(request.Key.OPERATION, WireValue.num op),
       (request.Key.FILE_SYSTEM_ID, WireValue.str fs),
       (request.Key.REQUEST_ID, WireValue.str (jsToString rid))] := rfl

theorem request.createReadMetadataRequest_eq (fs : String) (rid sz : Int) :
    request.createReadMetadataRequest fs rid sz =
      [(request.Key.OPERATION, WireValue.num request.Operation.READ_METADATA),
       (request.Key.FILE_SYSTEM_ID, WireValue.str fs),
       (request.Key.REQUEST_ID, WireValue.str (jsToString rid)),
       (request.Key.ARCHIVE_SIZE, WireValue.str (jsToString sz))] := rfl

theorem request.createReadChunkDoneResponse_eq (fs : String) (rid : Int)
    (b : List Nat) :
    request.createReadChunkDoneResponse fs rid b =
      [(request.Key.OPERATION, WireValue.num request.Operation.READ_CHUNK_DONE),
       (request.Key.FILE_SYSTEM_ID, WireValue.str fs),
       (request.Key.REQUEST_ID, WireValue.str (jsToString rid)),
       (request.Key.CHUNK_BUFFER, WireValue.buf b)] := rfl

theorem request.createReadChunkErrorResponse_eq (fs : String) (rid : Int) :
    request.createReadChunkErrorResponse fs rid =
      [(request.Key.OPERATION,
        WireValue.num request.Operation.READ_CHUNK_ERROR),
       (request.Key.FILE_SYSTEM_ID, WireValue.str fs),
       (request.Key.REQUEST_ID, WireValue.str (jsToString rid))] := rfl

theorem request.createCloseVolumeRequest_eq (fs : String) :
    request.createCloseVolumeRequest fs =
      [(request.Key.OPERATION, WireValue.num request.Operation.CLOSE_VOLUME),
       (request.Key.FILE_SYSTEM_ID, WireValue.str fs),
       (request.Key.REQUEST_ID, WireValue.str "-1")] := rfl

theorem request.createOpenFileRequest_eq (fs : String) (rid : Int)
    (p : String) (sz : Int) :
    request.createOpenFileRequest fs rid p sz =
      [(request.Key.OPERATION, WireValue.num request.Operation.OPEN_FILE),
       (request.Key.FILE_SYSTEM_ID, WireValue.str fs),
       (request.Key.REQUEST_ID, WireValue.str (jsToString rid)),
       (request.Key.FILE_PATH, WireValue.str p),
       (request.Key.ARCHIVE_SIZE, WireValue.str (jsToString sz))] := rfl

theorem request.createCloseFileRequest_eq (fs : String) (rid orid : Int) :
    request.createCloseFileRequest fs rid orid =
      [(request.Key.OPERATION, WireValue.num request.Operation.CLOSE_FILE),
       (request.Key.FILE_SYSTEM_ID, WireValue.str fs),
       (request.Key.REQUEST_ID, WireValue.str (jsToString rid)),
       (request.Key.OPEN_REQUEST_ID, WireValue.str (jsToString orid))] := rfl

theorem request.createReadFileRequest_eq (fs : String) (rid orid off len : Int) :
    request.createReadFileRequest fs rid orid off len =
      [(request.Key.OPERATION, WireValue.num request.Operation.READ_FILE),
       (request.Key.FILE_SYSTEM_ID, WireValue.str fs),
       (request.Key.REQUEST_ID, WireValue.str (jsToString rid)),
       (request.Key.OPEN_REQUEST_ID, WireValue.str (jsToString orid)),
       (request.Key.OFFSET, WireValue.str (jsToString off)),
       (request.Key.LENGTH, WireValue.num len)] := rfl

theorem createReadMetadataDoneResponse_eq (fs : String) (rid : Int)
    (md : List (String × WireValue)) :
    createReadMetadataDoneResponse fs rid md =
      [(request.Key.OPERATION,
        WireValue.num request.Operation.READ_METADATA_DONE),
       (request.Key.FILE_SYSTEM_ID, WireValue.str fs),
       (request.Key.REQUEST_ID, WireValue.str (jsToString rid)),
       (request.Key.METADATA, WireValue.dict md)] := rfl

theorem createReadChunkRequest_eq (fs : String) (rid off len : Int) :
    createReadChunkRequest fs rid off len =
      [(request.Key.OPERATION, WireValue.num request.Operation.READ_CHUNK),
       (request.Key.FILE_SYSTEM_ID, WireValue.str fs),
       (request.Key.REQUEST_ID, WireValue.str (jsToString rid)),
       (request.Key.OFFSET, WireValue.str (jsToString off)),
       (request.Key.LENGTH, WireValue.num len)] := rfl

theorem createOpenFileDoneResponse_eq (fs : String) (rid : Int) :
    createOpenFileDoneResponse fs rid =
      [(request.Key.OPERATION, WireValue.num request.Operation.OPEN_FILE_DONE),
       (request.Key.FILE_SYSTEM_ID, WireValue.str fs),
       (request.Key.REQUEST_ID, WireValue.str (jsToString rid))] := rfl

theorem createCloseFileDoneResponse_eq (fs : String) (rid : Int) :
    createCloseFileDoneResponse fs rid =
      [(request.Key.OPERATION,
        WireValue.num request.Operation.CLOSE_FILE_DONE),
       (request.Key.FILE_SYSTEM_ID, WireValue.str fs),
       (request.Key.REQUEST_ID, WireValue.str (jsToString rid))] := rfl

theorem createReadFileDoneResponse_eq (fs : String) (rid : Int)
    (dta : List Nat) (hm : Bool) :
    createReadFileDoneResponse fs rid dta hm =
      [(request.Key.OPERATION, WireValue.num request.Operation.READ_FILE_DONE),
       (request.Key.FILE_SYSTEM_ID, WireValue.str fs),
       (request.Key.REQUEST_ID, WireValue.str (jsToString rid)),
       (request.Key.READ_FILE_DATA, WireValue.buf dta),
       (request.Key.HAS_MORE_DATA, WireValue.boolean hm)] := rfl

theorem createFileSystemErrorResponse_eq (fs : String) (rid : Int)
    (e : String) :
    createFileSystemErrorResponse fs rid e =
      [(request.Key.OPERATION,
        WireValue.num request.Operation.FILE_SYSTEM_ERROR),
       (request.Key.FILE_SYSTEM_ID, WireValue.str fs),
       (request.Key.REQUEST_ID, WireValue.str (jsToString rid)),
       (request.Key.ERROR, WireValue.str e)] := rfl

theorem parseDecInt?_neg_one : parseDecInt? "-1" = some (-1) := by decide

/-- C5: for every Operation and every key combination of the §6 table,
encoding a typed value into the wire envelope and decoding that envelope
yields the identical typed value back. -/
theorem C5_encode_decode_roundtrip (m : TypedMessage) :
    decode (encode m) = Except.ok m := by
  cases m <;>
    simp [encode, decode, request.createReadMetadataRequest_eq,
      request.createReadChunkDoneResponse_eq,
      request.createReadChunkErrorResponse_eq,
      request.createCloseVolumeRequest_eq, request.createOpenFileRequest_eq,
      request.createCloseFileRequest_eq, request.createReadFileRequest_eq,
      createReadMetadataDoneResponse_eq, createReadChunkRequest_eq,
      createOpenFileDoneResponse_eq, createCloseFileDoneResponse_eq,
      createReadFileDoneResponse_eq, createFileSystemErrorResponse_eq,
      getNum, getStr, getIntStr, getDict, getBuf, getBool, List.lookup,
      parseDecInt?_jsToString, parseDecInt?_neg_one,
      request.Key.OPERATION, request.Key.FILE_SYSTEM_ID,
      request.Key.REQUEST_ID, request.Key.ERROR, request.Key.METADATA,
      request.Key.ARCHIVE_SIZE, request.Key.CHUNK_BUFFER, request.Key.OFFSET,
      request.Key.LENGTH, request.Key.FILE_PATH, request.Key.OPEN_REQUEST_ID,
      request.Key.READ_FILE_DATA, request.Key.HAS_MORE_DATA,
      request.Operation.READ_METADATA, request.Operation.READ_METADATA_DONE,
      request.Operation.READ_CHUNK, request.Operation.READ_CHUNK_DONE,
      request.Operation.READ_CHUNK_ERROR, request.Operation.CLOSE_VOLUME,
      request.Operation.OPEN_FILE, request.Operation.OPEN_FILE_DONE,
      request.Operation.CLOSE_FILE, request.Operation.CLOSE_FILE_DONE,
      request.Operation.READ_FILE, request.Operation.READ_FILE_DONE,
      request.Operation.FILE_SYSTEM_ERROR]

/-- C1: every constructor of `request.js` returns an envelope whose keys
are exactly the three mandatory keys (`operation`, `file_system_id`,
`request_id`) followed by the per-operation keys of the §6 table, and
nothing else. -/
theorem C1_constructor_key_sets :
    (∀ (fs : String) (rid sz : Int),
      envKeys (request.createReadMetadataRequest fs rid sz)
        = [request.Key.OPERATION, request.Key.FILE_SYSTEM_ID,
           request.Key.REQUEST_ID, request.Key.ARCHIVE_SIZE]) ∧
    (∀ (fs : String) (rid : Int) (b : List Nat),
      envKeys (request.createReadChunkDoneResponse fs rid b)
        = [request.Key.OPERATION, request.Key.FILE_SYSTEM_ID,
           request.Key.REQUEST_ID, request.Key.CHUNK_BUFFER]) ∧
    (∀ (fs : String) (rid : Int),
      envKeys (request.createReadChunkErrorResponse fs rid)
        = [request.Key.OPERATION, request.Key.FILE_SYSTEM_ID,
           request.Key.REQUEST_ID]) ∧
    (∀ fs : String,
      envKeys (request.createCloseVolumeRequest fs)
        = [request.Key.OPERATION, request.Key.FILE_SYSTEM_ID,
           request.Key.REQUEST_ID]) ∧
    (∀ (fs : String) (rid : Int) (p : String) (sz : Int),
      envKeys (request.createOpenFileRequest fs rid p sz)
        = [request.Key.OPERATION, request.Key.FILE_SYSTEM_ID,
           request.Key.REQUEST_ID, request.Key.FILE_PATH,
           request.Key.ARCHIVE_SIZE]) ∧
    (∀ (fs : String) (rid orid : Int),
      envKeys (request.createCloseFileRequest fs rid orid)
        = [request.Key.OPERATION, request.Key.FILE_SYSTEM_ID,
           request.Key.REQUEST_ID, request.Key.OPEN_REQUEST_ID]) ∧
    (∀ (fs : String) (rid orid off len : Int),
      envKeys (request.createReadFileRequest fs rid orid off len)
        = [request.Key.OPERATION, request.Key.FILE_SYSTEM_ID,
           request.Key.REQUEST_ID, request.Key.OPEN_REQUEST_ID,
           request.Key.OFFSET, request.Key.LENGTH]) :=
  ⟨fun _ _ _ => rfl, fun _ _ _ => rfl, fun _ _ => rfl, fun _ => rfl,
   fun _ _ _ _ => rfl, fun _ _ _ => rfl, fun _ _ _ _ _ => rfl⟩

/-- C2: the requestId, openRequestId, offset and archiveSize arguments
appear on the wire as the decimal-string rendering of their value, while
the length argument of `createReadFileRequest` is stored as a native
number, unconverted. -/
theorem C2_decimal_string_fields :
    (∀ (op : Int) (fs : String) (rid : Int),
      List.lookup request.Key.REQUEST_ID (request.createBasic_ op fs rid)
        = some (WireValue.str (jsToString rid))) ∧
    (∀ (fs : String) (rid sz : Int),
      List.lookup request.Key.ARCHIVE_SIZE
          (request.createReadMetadataRequest fs rid sz)
        = some (WireValue.str (jsToString sz))) ∧
    (∀ (fs : String) (rid : Int) (p : String) (sz : Int),
      List.lookup request.Key.ARCHIVE_SIZE
          (request.createOpenFileRequest fs rid p sz)
        = some (WireValue.str (jsToString sz))) ∧
    (∀ (fs : String) (rid orid : Int),
      List.lookup request.Key.OPEN_REQUEST_ID
          (request.createCloseFileRequest fs rid orid)
        = some (WireValue.str (jsToString orid))) ∧
    (∀ (fs : String) (rid orid off len : Int),
      List.lookup request.Key.OPEN_REQUEST_ID
            (request.createReadFileRequest fs rid orid off len)
          = some (WireValue.str (jsToString orid)) ∧
        List.lookup request.Key.OFFSET
            (request.createReadFileRequest fs rid orid off len)
          = some (WireValue.str (jsToString off)) ∧
        List.lookup request.Key.LENGTH
            (request.createReadFileRequest fs rid orid off len)
          = some (WireValue.num len)) :=
  ⟨fun _ _ _ => rfl, fun _ _ _ => rfl, fun _ _ _ _ => rfl, fun _ _ _ => rfl,
   fun _ _ _ _ _ => ⟨rfl, rfl, rfl⟩⟩

/-- C3: `createCloseVolumeRequest` produces the CLOSE_VOLUME operation,
the reserved request id string `"-1"`, and no keys besides the three
mandatory ones (the spec adds that no response is expected for it). -/
theorem C3_close_volume_envelope :
    ∀ fs : String,
      List.lookup request.Key.OPERATION (request.createCloseVolumeRequest fs)
          = some (WireValue.num request.Operation.CLOSE_VOLUME) ∧
        List.lookup request.Key.REQUEST_ID
            (request.createCloseVolumeRequest fs)
          = some (WireValue.str "-1") ∧
        envKeys (request.createCloseVolumeRequest fs)
          = [request.Key.OPERATION, request.Key.FILE_SYSTEM_ID,
             request.Key.REQUEST_ID] :=
  fun _ => ⟨rfl, rfl, rfl⟩

/-- C4: `request.Operation` is a closed enumeration of exactly the
thirteen request/response kinds, with pairwise distinct codes
(READ_METADATA = 0 through READ_FILE_DONE = 11, FILE_SYSTEM_ERROR = -1),
and every constructor stamps its own operation code on its result. -/
theorem C4_operation_enumeration :
    request.operationCodes = [0, 1, 2, 3, 4, 5, 6, 7, 8, 9, 10, 11, -1] ∧
    request.operationCodes.Nodup ∧
    (∀ (fs : String) (rid sz : Int),
      List.lookup request.Key.OPERATION
          (request.createReadMetadataRequest fs rid sz)
        = some (WireValue.num request.Operation.READ_METADATA)) ∧
    (∀ (fs : String) (rid : Int) (b : List Nat),
      List.lookup request.Key.OPERATION
          (request.createReadChunkDoneResponse fs rid b)
        = some (WireValue.num request.Operation.READ_CHUNK_DONE)) ∧
    (∀ (fs : String) (rid : Int),
      List.lookup request.Key.OPERATION
          (request.createReadChunkErrorResponse fs rid)
        = some (WireValue.num request.Operation.READ_CHUNK_ERROR)) ∧
    (∀ fs : String,
      List.lookup request.Key.OPERATION (request.createCloseVolumeRequest fs)
        = some (WireValue.num request.Operation.CLOSE_VOLUME)) ∧
    (∀ (fs : String) (rid : Int) (p : String) (sz : Int),
      List.lookup request.Key.OPERATION
          (request.createOpenFileRequest fs rid p sz)
        = some (WireValue.num request.Operation.OPEN_FILE)) ∧
    (∀ (fs : String) (rid orid : Int),
      List.lookup request.Key.OPERATION
          (request.createCloseFileRequest fs rid orid)
        = some (WireValue.num request.Operation.CLOSE_FILE)) ∧
    (∀ (fs : String) (rid orid off len : Int),
      List.lookup request.Key.OPERATION
          (request.createReadFileRequest fs rid orid off len)
        = some (WireValue.num request.Operation.READ_FILE)) :=
  ⟨rfl, by decide, fun _ _ _ => rfl, fun _ _ _ => rfl, fun _ _ => rfl,
   fun _ => rfl, fun _ _ _ _ => rfl, fun _ _ _ => rfl, fun _ _ _ _ _ => rfl⟩

/-! ### Call histories, for statelessness of the codec. -/

/-- One call to a `request.js` constructor, with its arguments. -/
inductive CodecCall where
  | readMetadata (fs : String) (rid sz : Int)
  | readChunkDone (fs : String) (rid : Int) (b : List Nat)
  | readChunkError (fs : String) (rid : Int)
  | closeVolume (fs : String)
  | openFile (fs : String) (rid : Int) (p : String) (sz : Int)
  | closeFile (fs : String) (rid orid : Int)
  | readFile (fs : String) (rid orid off len : Int)

/-- Perform one constructor call. -/
def applyCall : CodecCall → Envelope
  | .readMetadata fs rid sz => request.createReadMetadataRequest fs rid sz
  | .readChunkDone fs rid b => request.createReadChunkDoneResponse fs rid b
  | .readChunkError fs rid => request.createReadChunkErrorResponse fs rid
  | .closeVolume fs => request.createCloseVolumeRequest fs
  | .openFile fs rid p sz => request.createOpenFileRequest fs rid p sz
  | .closeFile fs rid orid => request.createCloseFileRequest fs rid orid
  | .readFile fs rid orid off len =>
      request.createReadFileRequest fs rid orid off len

/-- Perform a sequence of constructor calls, collecting the returned
envelopes in order. -/
def runCalls (calls : List CodecCall) : List Envelope := calls.map applyCall

/-- C6: the codec is stateless and deterministic: within any call history,
a call's returned envelope is a function of its own arguments alone, and a
call changes neither the results of the calls before it nor of those after
it; in particular two calls with equal arguments return equal envelopes. -/
theorem C6_codec_stateless :
    ∀ (pre post : List CodecCall) (c : CodecCall),
      runCalls (pre ++ c :: post)
        = runCalls pre ++ applyCall c :: runCalls post := by
  intro pre post c
  simp [runCalls]

/-- C9 counterexample: `request.Key` defines thirteen wire key names, not
eleven as the claim counts them. -/
theorem C9_counterexample :
    request.keyNames.length = 13 ∧ ¬ request.keyNames.length = 11 := by
  decide

/-- C9 (amended from eleven to thirteen): the thirteen wire key names of
`request.Key` are pairwise distinct, so per-operation assignments never
overwrite a mandatory key and every constructor's envelope has exactly
3 + n entries, n the number of per-operation keys it sets. -/
theorem C9_keys_distinct_and_entry_counts :
    request.keyNames.Nodup ∧
    request.keyNames.length = 13 ∧
    (∀ (fs : String) (rid sz : Int),
      (request.createReadMetadataRequest fs rid sz).length = 3 + 1) ∧
    (∀ (fs : String) (rid : Int) (b : List Nat),
      (request.createReadChunkDoneResponse fs rid b).length = 3 + 1) ∧
    (∀ (fs : String) (rid : Int),
      (request.createReadChunkErrorResponse fs rid).length = 3 + 0) ∧
    (∀ fs : String, (request.createCloseVolumeRequest fs).length = 3 + 0) ∧
    (∀ (fs : String) (rid : Int) (p : String) (sz : Int),
      (request.createOpenFileRequest fs rid p sz).length = 3 + 2) ∧
    (∀ (fs : String) (rid orid : Int),
      (request.createCloseFileRequest fs rid orid).length = 3 + 1) ∧
    (∀ (fs : String) (rid orid off len : Int),
      (request.createReadFileRequest fs rid orid off len).length = 3 + 3) :=
  ⟨by decide, rfl, fun _ _ _ => rfl, fun _ _ _ => rfl, fun _ _ => rfl,
   fun _ => rfl, fun _ _ _ _ => rfl, fun _ _ _ => rfl, fun _ _ _ _ _ => rfl⟩

/-- C10: every constructor is total and non-validating: on any inputs of
the documented types it returns the fixed-shape envelope below and cannot
throw; `createReadFileRequest` performs no range check and stores any
offset and length verbatim, and `createOpenFileRequest` stores any
filePath string unchecked. -/
theorem C10_constructors_total_nonvalidating :
    (∀ (fs : String) (rid orid off len : Int),
      request.createReadFileRequest fs rid orid off len =
        [(request.Key.OPERATION, WireValue.num request.Operation.READ_FILE),
         (request.Key.FILE_SYSTEM_ID, WireValue.str fs),
         (request.Key.REQUEST_ID, WireValue.str (jsToString rid)),
         (request.Key.OPEN_REQUEST_ID, WireValue.str (jsToString orid)),
         (request.Key.OFFSET, WireValue.str (jsToString off)),
         (request.Key.LENGTH, WireValue.num len)]) ∧
    (∀ (fs : String) (rid : Int) (p : String) (sz : Int),
      request.createOpenFileRequest fs rid p sz =
        [(request.Key.OPERATION, WireValue.num request.Operation.OPEN_FILE),
         (request.Key.FILE_SYSTEM_ID, WireValue.str fs),
         (request.Key.REQUEST_ID, WireValue.str (jsToString rid)),
         (request.Key.FILE_PATH, WireValue.str p),
         (request.Key.ARCHIVE_SIZE, WireValue.str (jsToString sz))]) ∧
    (∀ (fs : String) (rid sz : Int),
      request.createReadMetadataRequest fs rid sz =
        [(request.Key.OPERATION,
          WireValue.num request.Operation.READ_METADATA),
         (request.Key.FILE_SYSTEM_ID, WireValue.str fs),
         (request.Key.REQUEST_ID, WireValue.str (jsToString rid)),
         (request.Key.ARCHIVE_SIZE, WireValue.str (jsToString sz))]) ∧
    (∀ (fs : String) (rid : Int) (b : List Nat),
      request.createReadChunkDoneResponse fs rid b =
        [(request.Key.OPERATION,
          WireValue.num request.Operation.READ_CHUNK_DONE),
         (request.Key.FILE_SYSTEM_ID, WireValue.str fs),
         (request.Key.REQUEST_ID, WireValue.str (jsToString rid)),
         (request.Key.CHUNK_BUFFER, WireValue.buf b)]) ∧
    (∀ (fs : String) (rid : Int),
      request.createReadChunkErrorResponse fs rid =
        [(request.Key.OPERATION,
          WireValue.num request.Operation.READ_CHUNK_ERROR),
         (request.Key.FILE_SYSTEM_ID, WireValue.str fs),
         (request.Key.REQUEST_ID, WireValue.str (jsToString rid))]) ∧
    (∀ fs : String,
      request.createCloseVolumeRequest fs =
        [(request.Key.OPERATION, WireValue.num request.Operation.CLOSE_VOLUME),
         (request.Key.FILE_SYSTEM_ID, WireValue.str fs),
         (request.Key.REQUEST_ID, WireValue.str "-1")]) ∧
    (∀ (fs : String) (rid orid : Int),
      request.createCloseFileRequest fs rid orid =
        [(request.Key.OPERATION, WireValue.num request.Operation.CLOSE_FILE),
         (request.Key.FILE_SYSTEM_ID, WireValue.str fs),
         (request.Key.REQUEST_ID, WireValue.str (jsToString rid)),
         (request.Key.OPEN_REQUEST_ID,
          WireValue.str (jsToString orid))]) :=
  ⟨request.createReadFileRequest_eq, request.createOpenFileRequest_eq,
   request.createReadMetadataRequest_eq, request.createReadChunkDoneResponse_eq,
   request.createReadChunkErrorResponse_eq, request.createCloseVolumeRequest_eq,
   request.createCloseFileRequest_eq⟩

/-! ### Volume-session state machine (spec-modelled, §3–§4.6, §7). -/

/-- The session phases of §4.4. -/
inductive SessPhase where
  | awaitingMetadata
  | ready
  | closed
deriving DecidableEq

/-- The errors of §7 relevant to the session machine. -/
inductive SessError where
  | protocolViolation
  | outOfRange
  | invalidSession
deriving DecidableEq

/-- Modelled from the spec: the VolumeSession record of §3 (the session
logic is not in `src/`): the archive size fixed at creation, the phase,
the outstanding read-chunk pulls (invariant 3.b allows at most one), and,
for bookkeeping, every (offset, length) pair this session has accepted in
a read-chunk or read-file request. -/
structure VolumeSession where
  archiveSize : Nat
  phase : SessPhase
  outstandingChunkPulls : List Int
  acceptedReads : List (Nat × Nat)
deriving DecidableEq

/-- An event handled by one session. -/
inductive SessEvent where
  | chunkPull (rid : Int) (offset len : Nat)
  | chunkResolve (rid : Int)
  | metadataDone
  | readFileReq (offset len : Nat)
  | closeVolume
deriving DecidableEq

/-- A fresh session in `AwaitingMetadata`, created on the first
read-metadata request; its archive size is fixed from then on. -/
def initSession (archiveSize : Nat) : VolumeSession :=
  { archiveSize := archiveSize, phase := SessPhase.awaitingMetadata,
    outstandingChunkPulls := [], acceptedReads := [] }

/-- Modelled from the spec: one step of the session machine (§4.4, §4.6,
§7; not in `src/`). A second read-chunk pull while one is outstanding is
a ProtocolViolation and is not processed; a pull or read-file whose
offset + length exceeds the archive size fails with OutOfRange and leaves
the session unchanged; close-volume cancels the outstanding pull and
closes the session. -/
def sessStep (s : VolumeSession) :
    SessEvent → VolumeSession × Option SessError
  | SessEvent.chunkPull rid off len =>
    if s.outstandingChunkPulls ≠ [] then
      (s, some SessError.protocolViolation)
    else if s.phase = SessPhase.closed then (s, some SessError.invalidSession)
    else if s.archiveSize < off + len then (s, some SessError.outOfRange)
    else ({ s with
            outstandingChunkPulls := [rid]
            acceptedReads := (off, len) :: s.acceptedReads }, none)
  | SessEvent.chunkResolve rid =>
    if rid ∈ s.outstandingChunkPulls then
      ({ s with outstandingChunkPulls := s.outstandingChunkPulls.erase rid },
       none)
    else (s, some SessError.protocolViolation)
  | SessEvent.metadataDone =>
    if s.phase = SessPhase.awaitingMetadata then
      ({ s with phase := SessPhase.ready }, none)
    else (s, some SessError.protocolViolation)
  | SessEvent.readFileReq off len =>
    if s.phase ≠ SessPhase.ready then (s, some SessError.invalidSession)
    else if s.archiveSize < off + len then (s, some SessError.outOfRange)
    else ({ s with acceptedReads := (off, len) :: s.acceptedReads }, none)
  | SessEvent.closeVolume =>
    ({ s with phase := SessPhase.closed, outstandingChunkPulls := [] }, none)

/-- Run a session through a sequence of events. -/
def runSession (s : VolumeSession) (evts : List SessEvent) : VolumeSession :=
  evts.foldl (fun s e => (sessStep s e).1) s

theorem sessStep_archiveSize (s : VolumeSession) (e : SessEvent) :
    (sessStep s e).1.archiveSize = s.archiveSize := by
  cases e <;> simp only [sessStep] <;> split_ifs <;> rfl

theorem sessStep_acceptedReads (s : VolumeSession) (e : SessEvent)
    (hP : ∀ p ∈ s.acceptedReads, p.1 + p.2 ≤ s.archiveSize) :
    ∀ p ∈ (sessStep s e).1.acceptedReads, p.1 + p.2 ≤ s.archiveSize := by
  cases e with
  | chunkPull rid off len =>
    simp only [sessStep]
    split_ifs with h1 h2 h3
    · exact hP
    · exact hP
    · exact hP
    · intro p hp
      simp only [List.mem_cons] at hp
      rcases hp with hp | hp
      · subst hp; simp only; omega
      · exact hP p hp
  | chunkResolve rid =>
    simp only [sessStep]
    split_ifs with h1
    · exact hP
    · exact hP
  | metadataDone =>
    simp only [sessStep]
    split_ifs with h1
    · exact hP
    · exact hP
  | readFileReq off len =>
    simp only [sessStep]
    split_ifs with h1 h2
    · exact hP
    · exact hP
    · intro p hp
      simp only [List.mem_cons] at hp
      rcases hp with hp | hp
      · subst hp; simp only; omega
      · exact hP p hp
  | closeVolume => exact hP

theorem sessStep_outstanding (s : VolumeSession) (e : SessEvent)
    (hO : s.outstandingChunkPulls.length ≤ 1) :
    (sessStep s e).1.outstandingChunkPulls.length ≤ 1 := by
  cases e with
  | chunkPull rid off len =>
    simp only [sessStep]
    split_ifs with h1 h2 h3
    · exact hO
    · exact hO
    · exact hO
    · simp
  | chunkResolve rid =>
    simp only [sessStep]
    split_ifs with h1
    · exact Nat.le_trans (List.Sublist.length_le (List.erase_sublist _ _)) hO
    · exact hO
  | metadataDone =>
    simp only [sessStep]
    split_ifs with h1
    · exact hO
    · exact hO
  | readFileReq off len =>
    simp only [sessStep]
    split_ifs with h1 h2
    · exact hO
    · exact hO
    · exact hO
  | closeVolume => simp [sessStep]

theorem runSession_archiveSize (s : VolumeSession) (evts : List SessEvent) :
    (runSession s evts).archiveSize = s.archiveSize := by
  induction evts generalizing s with
  | nil => rfl
  | cons e evts ih =>
    simp only [runSession, List.foldl_cons]
    rw [show List.foldl (fun s e => (sessStep s e).1) (sessStep s e).1 evts
        = runSession (sessStep s e).1 evts from rfl]
    rw [ih, sessStep_archiveSize]

theorem runSession_acceptedReads (s : VolumeSession) (evts : List SessEvent)
    (hP : ∀ p ∈ s.acceptedReads, p.1 + p.2 ≤ s.archiveSize) :
    ∀ p ∈ (runSession s evts).acceptedReads, p.1 + p.2 ≤ s.archiveSize := by
  induction evts generalizing s with
  | nil => exact hP
  | cons e evts ih =>
    have h1 : ∀ p ∈ (sessStep s e).1.acceptedReads,
        p.1 + p.2 ≤ (sessStep s e).1.archiveSize := by
      rw [sessStep_archiveSize]
      exact sessStep_acceptedReads s e hP
    have h2 := ih (sessStep s e).1 h1
    rw [sessStep_archiveSize] at h2
    exact h2

theorem runSession_outstanding (s : VolumeSession) (evts : List SessEvent)
    (hO : s.outstandingChunkPulls.length ≤ 1) :
    (runSession s evts).outstandingChunkPulls.length ≤ 1 := by
  induction evts generalizing s with
  | nil => exact hO
  | cons e evts ih =>
    simp only [runSession, List.foldl_cons]
    exact ih (sessStep s e).1 (sessStep_outstanding s e hO)

/-- C7: in any run of a session, every read-chunk or read-file request the
session accepts satisfies offset + length ≤ archiveSize, and the archive
size is still the one fixed when the session was created for the metadata
load. -/
theorem C7_reads_within_archive_size (sz : Nat) (evts : List SessEvent)
    (off len : Nat)
    (h : (off, len) ∈ (runSession (initSession sz) evts).acceptedReads) :
    off + len ≤ sz ∧ (runSession (initSession sz) evts).archiveSize = sz := by
  constructor
  · have hinit : ∀ p ∈ (initSession sz).acceptedReads,
        p.1 + p.2 ≤ (initSession sz).archiveSize := by
      simp [initSession]
    have := runSession_acceptedReads (initSession sz) evts hinit (off, len) h
    simpa [initSession] using this
  · rw [runSession_archiveSize]
    rfl

theorem C7_witness :
    0 + 50 ≤ 100 ∧
      (runSession (initSession 100)
          [SessEvent.metadataDone, SessEvent.readFileReq 0 50]).archiveSize
        = 100 :=
  C7_reads_within_archive_size 100
    [SessEvent.metadataDone, SessEvent.readFileReq 0 50] 0 50 (by decide)

/-- C8: at most one read-chunk pull is outstanding per session at any
time, and a second pull issued while one is outstanding is answered with
ProtocolViolation and leaves the session unchanged (not processed). -/
theorem C8_second_chunk_pull_protocol_violation :
    (∀ (s : VolumeSession) (rid : Int) (off len : Nat),
      s.outstandingChunkPulls ≠ [] →
        sessStep s (SessEvent.chunkPull rid off len)
          = (s, some SessError.protocolViolation)) ∧
    (∀ (sz : Nat) (evts : List SessEvent),
      (runSession (initSession sz) evts).outstandingChunkPulls.length ≤ 1) := by
  constructor
  · intro s rid off len h
    simp [sessStep, h]
  · intro sz evts
    exact runSession_outstanding (initSession sz) evts (by simp [initSession])

theorem C8_witness :
    sessStep ⟨100, SessPhase.ready, [7], []⟩ (SessEvent.chunkPull 8 0 10)
        = (⟨100, SessPhase.ready, [7], []⟩,
           some SessError.protocolViolation) ∧
      (runSession (initSession 100)
          [SessEvent.chunkPull 7 0 10,
           SessEvent.chunkPull 8 0 10]).outstandingChunkPulls.length ≤ 1 :=
  ⟨C8_second_chunk_pull_protocol_violation.1 ⟨100, SessPhase.ready, [7], []⟩
      8 0 10 (by decide),
   C8_second_chunk_pull_protocol_violation.2 100
      [SessEvent.chunkPull 7 0 10, SessEvent.chunkPull 8 0 10]⟩
